import Mathlib

/-!
Verification development for `src/main.cpp` of learningOpenGL.

The program is one translation unit.  This file embeds its pure parts
(the shader-file splitter `ParseShader`, the colour function `animatedFloat`,
the constant geometry of `main`) as Lean functions, and its effectful parts
(the `GLCall` error wrapper, `CompileShader`, `CreateShader` and the part of
`main` that follows shader parsing) as functions on an explicit world state
that records the pending OpenGL errors and the observable events in order.

Conventions.
* `std::string` is `String`; `std::string::npos` is `none`.
* The input stream of `ParseShader` is the list of lines that the successive
  successful `getline` calls yield.
* `float` arithmetic is exact rational arithmetic (`ℚ`).
* An array access outside its bounds has no defined result: the embedding
  returns `none` there.
-/

namespace LearningOpenGL

/-! ## Definitions: `ParseShader` (main.cpp lines 34-74) -/

/-- Search for `needle` in the remaining characters of a string, `pos` being the
position of the first remaining character: the position of the first occurrence, or
`none` when there is none. -/
def findFrom (needle : List Char) : List Char → Nat → Option Nat
  | [], pos => if needle.isPrefixOf [] then some pos else none
  | c :: cs, pos =>
    if needle.isPrefixOf (c :: cs) then some pos else findFrom needle cs (pos + 1)

/-- The call `s.find(needle)` of `std::string`: position of the first occurrence
of `needle` in `s`, and `none` for `std::string::npos`. -/
def find (s needle : String) : Option Nat :=
  findFrom needle.data s.data 0

/-- The local `enum class ShaderType { NONE = -1, VERTEX = 0, FRAGMENT = 1 }`. -/
inductive ShaderType where
  | NONE
  | VERTEX
  | FRAGMENT
  deriving DecidableEq, Repr

/-- The cast `(int)type`, with the enumerator values of the source. -/
def ShaderType.toInt : ShaderType → Int
  | .NONE => -1
  | .VERTEX => 0
  | .FRAGMENT => 1

/-- The source's `struct ShaderProgramSource`. -/
structure ShaderProgramSource where
  VertexSource : String
  FragmentSource : String
  deriving DecidableEq, Repr

/-- The variables of the loop of `ParseShader`: `type`, and the contents of the two
string streams `ss[0]` and `ss[1]`. -/
structure ParseState where
  type : ShaderType
  ss0 : String
  ss1 : String
  deriving DecidableEq, Repr

/-- Lines 58-65: the new value of `type` after a line in which `#shader` was found. -/
def selectType (type : ShaderType) (line : String) : ShaderType :=
  if find line "vertex" ≠ none then ShaderType.VERTEX
  else if find line "fragment" ≠ none then ShaderType.FRAGMENT
  else type

/-- Line 69, `ss[i] << line << "\n"`, on the two-element array `ss`: index 0 and 1
append to the corresponding buffer, any other index is outside the array. -/
def appendAt (i : Int) (st : ParseState) (line : String) : Option ParseState :=
  if i = 0 then some { st with ss0 := st.ss0 ++ line ++ "\n" }
  else if i = 1 then some { st with ss1 := st.ss1 ++ line ++ "\n" }
  else none

/-- The body of the `while (getline(stream, line))` loop, lines 56-70. -/
def parseLine (st : ParseState) (line : String) : Option ParseState :=
  if find line "#shader" ≠ none then
    some { st with type := selectType st.type line }
  else
    appendAt st.type.toInt st line

/-- The loop of lines 54-71 over the lines the stream yields. -/
def parseLoop : ParseState → List String → Option ParseState
  | st, [] => some st
  | st, line :: rest =>
    match parseLine st line with
    | none => none
    | some st' => parseLoop st' rest

/-- The function `ParseShader`, on the lines of the file at `filepath`: both buffers
start empty, `type` starts as `NONE`, and the result is `{ ss[0].str(), ss[1].str() }`. -/
def ParseShader (lines : List String) : Option ShaderProgramSource :=
  match parseLoop ⟨ShaderType.NONE, "", ""⟩ lines with
  | none => none
  | some st => some ⟨st.ss0, st.ss1⟩

/-- The value of `type` after the loop has read `lines`, starting from `type`. -/
def typeAfter : ShaderType → List String → ShaderType
  | type, [] => type
  | type, line :: rest =>
    if find line "#shader" ≠ none then typeAfter (selectType type line) rest
    else typeAfter type rest

/-- The index `(int)type` used by each execution of line 69, in order, when the loop
reads `lines` starting from `type`. -/
def appendIndices : ShaderType → List String → List Int
  | _, [] => []
  | type, line :: rest =>
    if find line "#shader" ≠ none then appendIndices (selectType type line) rest
    else type.toInt :: appendIndices type rest

/-! ### Specification vocabulary for `ParseShader` -/

/-- The text `text` occurs somewhere in `line`. -/
def Contains (line text : String) : Prop :=
  ∃ before after : String, line = before ++ text ++ after

/-- The line `line` begins with `text`. -/
def BeginsWith (line text : String) : Prop :=
  ∃ after : String, line = text ++ after

/-- The given lines in order, each followed by a newline character. -/
def withNewlines : List String → String
  | [] => ""
  | l :: ls => l ++ "\n" ++ withNewlines ls

/-- The lines of `lines` in which `#shader` does not occur and that are read while
section `sec` is selected, in order; `cur` is the selection when reading starts. -/
def linesOf (sec : ShaderType) : ShaderType → List String → List String
  | _, [] => []
  | cur, line :: rest =>
    if find line "#shader" ≠ none then linesOf sec (selectType cur line) rest
    else if cur = sec then line :: linesOf sec cur rest
    else linesOf sec cur rest

/-! ## Definitions: `animatedFloat` and the colour channels (lines 121-135, 215-227) -/

/-- The function `animatedFloat`, over exact rationals: the parameter `increment` is
overwritten when the channel is above 1 or below 0, and the sum is returned. -/
def animatedFloat (color_channel increment : ℚ) : ℚ :=
  let increment :=
    if color_channel > 1 then -(5 / 100)
    else if color_channel < 0 then 5 / 100
    else increment
  color_channel + increment

/-- The three locals `r`, `g`, `b` of `main`. -/
structure Color where
  r : ℚ
  g : ℚ
  b : ℚ
  deriving DecidableEq

/-- Lines 215-217: `r = 0.5f`, `b = 0.3f`, `g = 0.9f`. -/
def initialColor : Color := ⟨5 / 10, 9 / 10, 3 / 10⟩

/-- Lines 225-227: the colour update of one frame. -/
def stepColor (c : Color) : Color :=
  ⟨animatedFloat c.r (5 / 100), animatedFloat c.g (15 / 100), animatedFloat c.b (2 / 10)⟩

/-- The colour after the update of the `n`-th frame. -/
def colorAfter : Nat → Color
  | 0 => initialColor
  | n + 1 => stepColor (colorAfter n)

/-! ## Definitions: the geometry constants of `main` (lines 169-196, 234) -/

/-- The array `positions` of lines 169-174. -/
def positions : List ℚ := [-(1 / 2), -(1 / 2), 1 / 2, -(1 / 2), 1 / 2, 1 / 2, -(1 / 2), 1 / 2]

/-- The array `indices` of lines 177-180. -/
def indices : List Nat := [0, 1, 2, 2, 3, 0]

/-- The number of components of one vertex position: the `size` argument 2 of
`glVertexAttribPointer` at line 190. -/
def componentsPerVertex : Nat := 2

/-- The number of vertex positions stored in `positions`. -/
def vertexCount : Nat := positions.length / componentsPerVertex

/-- The `count` argument of `glDrawElements` at line 234. -/
def drawCount : Nat := 6

/-- The size argument `6 * 2 * sizeof(float)` of `glBufferData` at line 186. -/
def vertexUploadSize (sizeofFloat : Nat) : Nat := 6 * 2 * sizeofFloat

/-- The value of `sizeof(positions)`: the byte size of the array. -/
def positionsSize (sizeofFloat : Nat) : Nat := positions.length * sizeofFloat

/-- The size argument `6 * sizeof(unsigned int)` of `glBufferData` at line 196. -/
def indexUploadSize (sizeofUnsignedInt : Nat) : Nat := 6 * sizeofUnsignedInt

/-- The value of `sizeof(indices)`: the byte size of the array. -/
def indicesSize (sizeofUnsignedInt : Nat) : Nat := indices.length * sizeofUnsignedInt

/-- Primitive assembly in mode `GL_TRIANGLES`: every three consecutive indices form
one triangle. -/
def triangles : List Nat → List (Nat × Nat × Nat)
  | a :: b :: c :: rest => (a, b, c) :: triangles rest
  | _ => []

/-- The triangles drawn by line 234: those of the first `drawCount` indices. -/
def drawnTriangles : List (Nat × Nat × Nat) := triangles (indices.take drawCount)

/-! ## Definitions: the error wrapper `GLCall` (lines 9-31) -/

/-- The OpenGL constant `GL_NO_ERROR`. -/
def GL_NO_ERROR : Nat := 0

/-- The call `glGetError()` on the queue of pending errors (oldest first): it returns
the oldest pending error and removes it, and returns `GL_NO_ERROR` when none is pending. -/
def glGetError : List Nat → Nat × List Nat
  | [] => (GL_NO_ERROR, [])
  | e :: q => (e, q)

/-- The function `GLClearError`, `while (glGetError() != GL_NO_ERROR);`, as a function
on the queue: each round takes what `glGetError` returns and goes on when that is not
`GL_NO_ERROR`. -/
def GLClearError : List Nat → List Nat
  | [] => []
  | e :: q => if e ≠ GL_NO_ERROR then GLClearError q else q

/-- The line that `GLLogCall` prints for `error`. -/
def errorLine (error : Nat) (function file : String) (line : Nat) : String :=
  "[OpenGL ERROR] (" ++ toString error ++ "): " ++ function ++ " " ++ file ++ ":"
    ++ " on line " ++ toString line

/-- The function `GLLogCall`: its result, the lines it prints, and the queue it leaves.
The loop body returns in its first round, so at most one error is read. -/
def GLLogCall (function file : String) (line : Nat) (q : List Nat) :
    Bool × List String × List Nat :=
  let error := (glGetError q).1
  let q' := (glGetError q).2
  if error ≠ 0 then (false, [errorLine error function file line], q')
  else (true, [], q')

/-! ## Definitions: world state, `CompileShader`, `CreateShader`, `main` from line 207 -/

/-- The OpenGL constant `GL_VERTEX_SHADER`. -/
def GL_VERTEX_SHADER : Nat := 0x8B31

/-- The OpenGL constant `GL_FRAGMENT_SHADER`. -/
def GL_FRAGMENT_SHADER : Nat := 0x8B30

/-- The OpenGL constant `GL_FALSE`. -/
def GL_FALSE : Int := 0

/-- The OpenGL calls that the program makes from line 77 on, with the arguments that
matter here. -/
inductive GLOp where
  | glCreateShader (type : Nat)
  | glShaderSource (id : Nat) (src : String)
  | glCompileShader (id : Nat)
  | glGetShaderiv_COMPILE_STATUS (id : Nat)
  | glGetShaderiv_INFO_LOG_LENGTH (id : Nat)
  | glGetShaderInfoLog (id : Nat)
  | glDeleteShader (id : Nat)
  | glCreateProgram
  | glAttachShader (program shader : Nat)
  | glLinkProgram (program : Nat)
  | glValidateProgram (program : Nat)
  | glUseProgram (program : Nat)
  | glGetUniformLocation (program : Nat) (name : String)
  | glUniform4f (location : Int) (v0 v1 v2 v3 : ℚ)
  | glClear
  | glDrawElements (count : Nat)
  | glDeleteProgram (program : Nat)
  deriving DecidableEq

/-- What a run does that can be observed, in the order in which it happens. -/
inductive Event where
  | gl (op : GLOp)
  | out (text : String)
  | outValue (label : String) (value : ℚ)
  | glfwSwapBuffers
  | glfwPollEvents
  | debugbreak
  deriving DecidableEq

/-- The state of a run: the pending OpenGL errors (oldest first), the events so far
(oldest first), and whether `__debugbreak()` has been reached. -/
structure World where
  errors : List Nat
  events : List Event
  halted : Bool
  deriving DecidableEq

/-- The answers of the OpenGL implementation: the ids it hands out, the compile status
and info log of a shader of a given type and source, the location of a uniform, and
the errors that each call records. -/
structure Driver where
  createShader : Nat → Nat
  createProgram : Nat
  compileStatus : Nat → String → Int
  infoLog : Nat → String → String
  uniformLocation : Nat → String → Int
  raises : GLOp → List Nat

/-- Record an event, unless the run has halted. -/
def emit (e : Event) (w : World) : World :=
  if w.halted then w else { w with events := w.events ++ [e] }

/-- One OpenGL call: it is recorded, and the errors it raises become pending. -/
def glDo (d : Driver) (op : GLOp) (w : World) : World :=
  if w.halted then w
  else { w with errors := w.errors ++ d.raises op, events := w.events ++ [Event.gl op] }

/-- The macro `ASSERT(x)`: `if (!(x)) __debugbreak();`. -/
def ASSERT (x : Bool) (w : World) : World :=
  if w.halted then w
  else if !x then { w with events := w.events ++ [Event.debugbreak], halted := true }
  else w

/-- The macro `GLCall(x)`: `GLClearError(); x; ASSERT(GLLogCall(#x, __FILE__, __LINE__))`.
The statement `x` is a function on the world, `text` is `#x`. -/
def GLCall (x : World → World) (text file : String) (line : Nat) (w : World) : World :=
  if w.halted then w
  else
    let w1 := { w with errors := GLClearError w.errors }
    let w2 := x w1
    let logged := GLLogCall text file line w2.errors
    let w3 := { w2 with errors := logged.2.2, events := w2.events ++ logged.2.1.map Event.out }
    ASSERT logged.1 w3

/-- The function `CompileShader` (lines 77-101): the returned id and the world after. -/
def CompileShader (d : Driver) (type : Nat) (source : String) (w : World) : Nat × World :=
  let id := d.createShader type
  let w := glDo d (.glCreateShader type) w
  let w := glDo d (.glShaderSource id source) w
  let w := glDo d (.glCompileShader id) w
  let result := d.compileStatus type source
  let w := glDo d (.glGetShaderiv_COMPILE_STATUS id) w
  if result = GL_FALSE then
    let w := glDo d (.glGetShaderiv_INFO_LOG_LENGTH id) w
    let message := d.infoLog type source
    let w := glDo d (.glGetShaderInfoLog id) w
    let w := emit (.out ("Faild to compile"
      ++ (if type = GL_VERTEX_SHADER then " vectex" else " fragment") ++ " shader!")) w
    let w := emit (.out message) w
    let w := glDo d (.glDeleteShader id) w
    (0, w)
  else
    (id, w)

/-- The function `CreateShader` (lines 104-119): the returned program and the world
after. -/
def CreateShader (d : Driver) (vertexShader fragmentShader : String) (w : World) :
    Nat × World :=
  let program := d.createProgram
  let w := glDo d .glCreateProgram w
  let vs := (CompileShader d GL_VERTEX_SHADER vertexShader w).1
  let w := (CompileShader d GL_VERTEX_SHADER vertexShader w).2
  let fs := (CompileShader d GL_FRAGMENT_SHADER fragmentShader w).1
  let w := (CompileShader d GL_FRAGMENT_SHADER fragmentShader w).2
  let w := glDo d (.glAttachShader program vs) w
  let w := glDo d (.glAttachShader program fs) w
  let w := glDo d (.glLinkProgram program) w
  let w := glDo d (.glValidateProgram program) w
  let w := glDo d (.glDeleteShader vs) w
  let w := glDo d (.glDeleteShader fs) w
  (program, w)

/-- One round of the render loop (lines 223-240), from the colour `c`. -/
def renderFrame (d : Driver) (file : String) (location : Int) (c : Color) (w : World) :
    Color × World :=
  let w := GLCall (glDo d .glClear) "glClear(GL_COLOR_BUFFER_BIT)" file 223 w
  let c := stepColor c
  let w := emit (.outValue "Red = " c.r) w
  let w := emit (.outValue "Green = " c.g) w
  let w := emit (.outValue "Blue = " c.b) w
  let w := GLCall (glDo d (.glUniform4f location c.r c.g c.b 1))
    "glUniform4f(location, r, g, b, 1.0f)" file 233 w
  let w := GLCall (glDo d (.glDrawElements 6))
    "glDrawElements(GL_TRIANGLES, 6, GL_UNSIGNED_INT, nullptr)" file 234 w
  let w := emit .glfwSwapBuffers w
  let w := emit .glfwPollEvents w
  (c, w)

/-- The render loop, for the `frames` rounds in which `glfwWindowShouldClose` answers
false. -/
def renderLoop (d : Driver) (file : String) (location : Int) : Nat → Color → World → World
  | 0, _, w => w
  | n + 1, c, w =>
    renderLoop d file location n (renderFrame d file location c w).1
      (renderFrame d file location c w).2

/-- The function `main` from line 207 to its end, given the parsed `source`, the value
`file` of `__FILE__`, and the number of rounds of the render loop. -/
def mainFromLine207 (d : Driver) (file : String) (source : ShaderProgramSource)
    (frames : Nat) (w : World) : World :=
  let shader := (CreateShader d source.VertexSource source.FragmentSource w).1
  let w := (CreateShader d source.VertexSource source.FragmentSource w).2
  let w := GLCall (glDo d (.glUseProgram shader)) "glUseProgram(shader)" file 208 w
  let location := d.uniformLocation shader "u_Color"
  let w := GLCall (glDo d (.glGetUniformLocation shader "u_Color"))
    "int location = glGetUniformLocation(shader, \"u_Color\")" file 211 w
  let w := ASSERT (location != -1) w
  let w := GLCall (glDo d (.glUniform4f location (7 / 10) 0 (3 / 10) 1))
    "glUniform4f(location, 0.7f, 0.0f, 0.3, 1.0f)" file 213 w
  let w := renderLoop d file location frames initialColor w
  let w := GLCall (glDo d (.glDeleteProgram shader)) "glDeleteProgram(shader)" file 243 w
  w

/-- A driver on which the vertex shader fails to compile and the fragment shader
compiles: attaching the shader id 0 records `GL_INVALID_VALUE` (0x0501), no other call
records an error, and the uniform `u_Color` is found at location 0. -/
def vertexFailsDriver : Driver where
  createShader := fun type => if type = GL_VERTEX_SHADER then 1 else 2
  createProgram := 3
  compileStatus := fun type _ => if type = GL_VERTEX_SHADER then 0 else 1
  infoLog := fun _ _ => "0(1) : error C0000: syntax error"
  uniformLocation := fun _ _ => 0
  raises := fun op => if op = GLOp.glAttachShader 3 0 then [0x0501] else []

/-- A world at line 207: no error pending, nothing observed yet, not halted. -/
def startWorld : World := ⟨[], [], false⟩

/-! ## Theorems: `ParseShader` -/

theorem findFrom_eq_none_iff (needle : List Char) (hay : List Char) (pos : Nat) :
    findFrom needle hay pos = none ↔ ¬ needle <:+: hay := by
  induction hay generalizing pos with
  | nil =>
    simp only [findFrom, List.infix_nil]
    cases needle <;> simp [List.isPrefixOf]
  | cons c cs ih =>
    simp only [findFrom, List.infix_cons_iff]
    by_cases h : needle.isPrefixOf (c :: cs) = true
    · simp only [h, if_true]
      have hp : needle <+: c :: cs := List.isPrefixOf_iff_prefix.mp h
      simp [hp]
    · have hp : ¬ needle <+: c :: cs := fun hp => h (List.isPrefixOf_iff_prefix.mpr hp)
      simp only [h, if_false, Bool.false_eq_true]
      rw [ih]
      simp [hp]

theorem contains_iff_data (line text : String) :
    Contains line text ↔ text.data <:+: line.data := by
  constructor
  · rintro ⟨before, after, rfl⟩
    exact ⟨before.data, after.data, by simp [String.data_append]⟩
  · rintro ⟨s, t, h⟩
    refine ⟨⟨s⟩, ⟨t⟩, ?_⟩
    apply String.ext
    simp [String.data_append, h]

/-- The test `line.find(text) != std::string::npos` holds exactly when `text` occurs
in `line`. -/
theorem find_ne_none_iff (line text : String) :
    find line text ≠ none ↔ Contains line text := by
  rw [contains_iff_data, Ne, find, findFrom_eq_none_iff, not_not]

theorem find_eq_none_iff (line text : String) :
    find line text = none ↔ ¬ Contains line text := by
  rw [← find_ne_none_iff, not_not]

theorem selectType_ne_NONE (type : ShaderType) (line : String)
    (h : type ≠ ShaderType.NONE) : selectType type line ≠ ShaderType.NONE := by
  unfold selectType
  split
  · simp
  · split
    · simp
    · exact h

theorem selectType_of_vertex (type : ShaderType) (line : String)
    (h : Contains line "vertex") : selectType type line = ShaderType.VERTEX := by
  have h' := (find_ne_none_iff line "vertex").mpr h
  simp [selectType, h']

theorem selectType_of_fragment (type : ShaderType) (line : String)
    (hv : ¬ Contains line "vertex") (hf : Contains line "fragment") :
    selectType type line = ShaderType.FRAGMENT := by
  have hv' := (find_eq_none_iff line "vertex").mpr hv
  have hf' := (find_ne_none_iff line "fragment").mpr hf
  simp [selectType, hv', hf']

theorem selectType_of_neither (type : ShaderType) (line : String)
    (hv : ¬ Contains line "vertex") (hf : ¬ Contains line "fragment") :
    selectType type line = type := by
  have hv' := (find_eq_none_iff line "vertex").mpr hv
  have hf' := (find_eq_none_iff line "fragment").mpr hf
  simp [selectType, hv', hf']

theorem parseLine_marker (st : ParseState) (line : String)
    (h : find line "#shader" ≠ none) :
    parseLine st line = some ⟨selectType st.type line, st.ss0, st.ss1⟩ := by
  simp [parseLine, h]

theorem parseLine_vertex (st : ParseState) (line : String)
    (h : find line "#shader" = none) (ht : st.type = ShaderType.VERTEX) :
    parseLine st line = some ⟨ShaderType.VERTEX, st.ss0 ++ line ++ "\n", st.ss1⟩ := by
  simp [parseLine, h, ht, appendAt, ShaderType.toInt]

theorem parseLine_fragment (st : ParseState) (line : String)
    (h : find line "#shader" = none) (ht : st.type = ShaderType.FRAGMENT) :
    parseLine st line = some ⟨ShaderType.FRAGMENT, st.ss0, st.ss1 ++ line ++ "\n"⟩ := by
  simp [parseLine, h, ht, appendAt, ShaderType.toInt]

theorem parseLine_none (st : ParseState) (line : String)
    (h : find line "#shader" = none) (ht : st.type = ShaderType.NONE) :
    parseLine st line = none := by
  simp [parseLine, h, ht, appendAt, ShaderType.toInt]

/-- From a state in which a section is selected the loop runs to the end of the input,
and each buffer has grown by the ordinary lines read while it was selected. -/
theorem parseLoop_selected (lines : List String) (st : ParseState)
    (hsel : st.type ≠ ShaderType.NONE) :
    parseLoop st lines = some
      ⟨typeAfter st.type lines,
       st.ss0 ++ withNewlines (linesOf ShaderType.VERTEX st.type lines),
       st.ss1 ++ withNewlines (linesOf ShaderType.FRAGMENT st.type lines)⟩ := by
  induction lines generalizing st with
  | nil =>
    cases st
    simp [parseLoop, typeAfter, linesOf, withNewlines]
  | cons line rest ih =>
    by_cases hm : find line "#shader" = none
    · cases ht : st.type with
      | NONE => exact absurd ht hsel
      | VERTEX =>
        rw [parseLoop, parseLine_vertex st line hm ht]
        simp only []
        rw [ih _ (by simp)]
        simp [typeAfter, linesOf, withNewlines, hm, String.append_assoc]
      | FRAGMENT =>
        rw [parseLoop, parseLine_fragment st line hm ht]
        simp only []
        rw [ih _ (by simp)]
        simp [typeAfter, linesOf, withNewlines, hm, String.append_assoc]
    · rw [parseLoop, parseLine_marker st line hm]
      simp only []
      rw [ih _ (selectType_ne_NONE _ _ hsel)]
      simp [typeAfter, linesOf, hm]

theorem linesOf_append_ordinary (sec cur : ShaderType) (ls rest : List String)
    (h : ∀ l ∈ ls, find l "#shader" = none) :
    linesOf sec cur (ls ++ rest) = (if cur = sec then ls else []) ++ linesOf sec cur rest := by
  induction ls with
  | nil => by_cases hc : cur = sec <;> simp [hc]
  | cons l ls ih =>
    have hl : find l "#shader" = none := h l (List.mem_cons_self _ _)
    have ih' := ih (fun x hx => h x (List.mem_cons_of_mem _ hx))
    by_cases hc : cur = sec
    · simp [linesOf, hl, hc] at ih' ⊢
      exact ih'
    · simp [linesOf, hl, hc] at ih' ⊢
      exact ih'

theorem linesOf_ordinary (sec cur : ShaderType) (ls : List String)
    (h : ∀ l ∈ ls, find l "#shader" = none) :
    linesOf sec cur ls = if cur = sec then ls else [] := by
  have := linesOf_append_ordinary sec cur ls [] h
  simpa [linesOf] using this

theorem appendIndices_selected (lines : List String) (type : ShaderType)
    (hsel : type ≠ ShaderType.NONE) :
    ∀ i ∈ appendIndices type lines, i = 0 ∨ i = 1 := by
  induction lines generalizing type with
  | nil => simp [appendIndices]
  | cons line rest ih =>
    intro i hi
    by_cases hm : find line "#shader" = none
    · simp only [appendIndices, hm, ne_eq, not_true_eq_false, if_false, List.mem_cons] at hi
      rcases hi with hi | hi
      · cases type with
        | NONE => exact absurd rfl hsel
        | VERTEX => left; simpa [ShaderType.toInt] using hi
        | FRAGMENT => right; simpa [ShaderType.toInt] using hi
      · exact ih type hsel i hi
    · simp only [appendIndices, hm, ne_eq, not_false_eq_true, if_true] at hi
      exact ih _ (selectType_ne_NONE _ _ hsel) i hi

theorem beginsWith_iff_data (line text : String) :
    BeginsWith line text ↔ text.data <+: line.data := by
  constructor
  · rintro ⟨after, rfl⟩
    exact ⟨after.data, by simp [String.data_append]⟩
  · rintro ⟨t, h⟩
    refine ⟨⟨t⟩, ?_⟩
    apply String.ext
    simp [String.data_append, h]

/-- The loop runs to the end of the input whenever no append uses index -1, and then
each buffer has grown by the ordinary lines read while it was selected. -/
theorem parseLoop_of_indices (lines : List String) (st : ParseState)
    (hidx : ∀ i ∈ appendIndices st.type lines, i ≠ -1) :
    parseLoop st lines = some
      ⟨typeAfter st.type lines,
       st.ss0 ++ withNewlines (linesOf ShaderType.VERTEX st.type lines),
       st.ss1 ++ withNewlines (linesOf ShaderType.FRAGMENT st.type lines)⟩ := by
  induction lines generalizing st with
  | nil =>
    cases st
    simp [parseLoop, typeAfter, linesOf, withNewlines]
  | cons line rest ih =>
    by_cases hm : find line "#shader" = none
    · have hrest : ∀ i ∈ appendIndices st.type rest, i ≠ -1 := by
        intro i hi
        apply hidx
        simp [appendIndices, hm, hi]
      cases ht : st.type with
      | NONE =>
        exfalso
        apply hidx (-1) _ rfl
        simp [appendIndices, hm, ht, ShaderType.toInt]
      | VERTEX =>
        rw [parseLoop, parseLine_vertex st line hm ht]
        simp only []
        rw [ih _ (by simpa [ht] using hrest)]
        simp [typeAfter, linesOf, withNewlines, hm, String.append_assoc]
      | FRAGMENT =>
        rw [parseLoop, parseLine_fragment st line hm ht]
        simp only []
        rw [ih _ (by simpa [ht] using hrest)]
        simp [typeAfter, linesOf, withNewlines, hm, String.append_assoc]
    · rw [parseLoop, parseLine_marker st line hm]
      simp only []
      rw [ih _ (by simpa [appendIndices, hm] using hidx)]
      simp [typeAfter, linesOf, hm]

/-! ### The claims about `ParseShader` -/

/-- C1. `ParseShader` splits a well-formed shader file into its two sections: when no
line of `V` and no line of `F` contains the text `#shader`, parsing the file whose lines
are `#shader vertex`, the lines of `V`, `#shader fragment`, the lines of `F` returns
`VertexSource` equal to the lines of `V` in order, each followed by a newline, and
`FragmentSource` equal to the lines of `F` in order, each followed by a newline. -/
theorem ParseShader_splits_well_formed (V F : List String)
    (hV : ∀ l ∈ V, ¬ Contains l "#shader") (hF : ∀ l ∈ F, ¬ Contains l "#shader") :
    ParseShader ("#shader vertex" :: (V ++ "#shader fragment" :: F))
      = some ⟨withNewlines V, withNewlines F⟩ := by
  have hV' : ∀ l ∈ V, find l "#shader" = none :=
    fun l hl => (find_eq_none_iff l "#shader").mpr (hV l hl)
  have hF' : ∀ l ∈ F, find l "#shader" = none :=
    fun l hl => (find_eq_none_iff l "#shader").mpr (hF l hl)
  have h1 : find "#shader vertex" "#shader" ≠ none := by decide
  have h2 : find "#shader fragment" "#shader" ≠ none := by decide
  have s1 : selectType ShaderType.NONE "#shader vertex" = ShaderType.VERTEX := by decide
  have s2 : selectType ShaderType.VERTEX "#shader fragment" = ShaderType.FRAGMENT := by decide
  have hv : linesOf ShaderType.VERTEX ShaderType.VERTEX (V ++ "#shader fragment" :: F) = V := by
    rw [linesOf_append_ordinary _ _ _ _ hV', linesOf, if_pos h2, s2, linesOf_ordinary _ _ _ hF']
    simp
  have hf : linesOf ShaderType.FRAGMENT ShaderType.VERTEX (V ++ "#shader fragment" :: F) = F := by
    rw [linesOf_append_ordinary _ _ _ _ hV', linesOf, if_pos h2, s2, linesOf_ordinary _ _ _ hF']
    simp
  unfold ParseShader
  rw [parseLoop, parseLine_marker _ _ h1]
  simp only [s1]
  rw [parseLoop_selected _ _ (by simp)]
  simp only [hv, hf, String.empty_append]

/-- Witness for C1: a two-line vertex section and a one-line fragment section. -/
theorem ParseShader_splits_well_formed_witness :
    ParseShader ["#shader vertex", "void main()", "// v", "#shader fragment", "color = u_Color;"]
      = some ⟨"void main()\n// v\n", "color = u_Color;\n"⟩ :=
  ParseShader_splits_well_formed ["void main()", "// v"] ["color = u_Color;"]
    (by
      intro l hl
      simp only [List.mem_cons, List.mem_singleton, List.not_mem_nil, or_false] at hl
      rcases hl with rfl | rfl <;> exact (find_eq_none_iff _ _).mp (by decide))
    (by
      intro l hl
      simp only [List.mem_singleton] at hl
      subst hl
      exact (find_eq_none_iff _ _).mp (by decide))

/-- Counterexample to C3 as stated: in the line `// see #shader vertex` the token
`#shader` occurs, but not at the start; read while the fragment section is selected, the
line is not appended to the fragment section (nor to any section) and the selection
changes to vertex, so the line is not treated as an ordinary line. -/
theorem marker_inside_line_not_ordinary :
    Contains "// see #shader vertex" "#shader" ∧
    ¬ BeginsWith "// see #shader vertex" "#shader" ∧
    parseLine ⟨ShaderType.FRAGMENT, "v\n", "f\n"⟩ "// see #shader vertex"
      = some ⟨ShaderType.VERTEX, "v\n", "f\n"⟩ ∧
    parseLine ⟨ShaderType.FRAGMENT, "v\n", "f\n"⟩ "// see #shader vertex"
      ≠ some ⟨ShaderType.FRAGMENT, "v\n", "f\n" ++ "// see #shader vertex" ++ "\n"⟩ := by
  refine ⟨⟨"// see ", " vertex", by decide⟩, ?_, by decide, by decide⟩
  rw [beginsWith_iff_data]
  decide

/-- C3, amended. In `ParseShader` a line acts as a section selector whenever the token
`#shader` occurs anywhere in it, at the start or not: such a line is appended to no
section, and the selection becomes vertex when the line contains `vertex`, otherwise
fragment when it contains `fragment`, and otherwise stays what it was. -/
theorem parseLine_of_contains_marker (st : ParseState) (line : String)
    (h : Contains line "#shader") :
    parseLine st line = some ⟨selectType st.type line, st.ss0, st.ss1⟩ ∧
    (Contains line "vertex" → selectType st.type line = ShaderType.VERTEX) ∧
    (¬ Contains line "vertex" → Contains line "fragment" →
      selectType st.type line = ShaderType.FRAGMENT) ∧
    (¬ Contains line "vertex" → ¬ Contains line "fragment" →
      selectType st.type line = st.type) :=
  ⟨parseLine_marker st line ((find_ne_none_iff line "#shader").mpr h),
   selectType_of_vertex st.type line,
   selectType_of_fragment st.type line,
   selectType_of_neither st.type line⟩

/-- Witness for the amended C3, at the comment line of the counterexample. -/
theorem parseLine_of_contains_marker_witness :
    parseLine ⟨ShaderType.FRAGMENT, "v\n", "f\n"⟩ "// see #shader vertex"
      = some ⟨selectType ShaderType.FRAGMENT "// see #shader vertex", "v\n", "f\n"⟩ :=
  (parseLine_of_contains_marker ⟨ShaderType.FRAGMENT, "v\n", "f\n"⟩ "// see #shader vertex"
    ⟨"// see ", " vertex", by decide⟩).1

/-- C9. When the first line of the file contains `#shader` together with `vertex` or
`fragment`, every append of `ParseShader` uses section index 0 or 1, whatever lines
follow, and `ParseShader` returns; a later marker line that names neither section leaves
the selection unchanged, and a marker line that names both selects vertex.  Without the
precondition the index can be -1: when the first line is an ordinary line, it is
appended at index -1, outside the two-element array. -/
theorem ParseShader_indices_in_bounds (first : String) (rest : List String)
    (hmarker : Contains first "#shader")
    (hname : Contains first "vertex" ∨ Contains first "fragment") :
    (∀ i ∈ appendIndices ShaderType.NONE (first :: rest), i = 0 ∨ i = 1) ∧
    (ParseShader (first :: rest)).isSome = true ∧
    (∀ (st : ParseState) (line : String), Contains line "#shader" →
      ¬ Contains line "vertex" → ¬ Contains line "fragment" →
      parseLine st line = some ⟨st.type, st.ss0, st.ss1⟩) ∧
    (∀ (st : ParseState) (line : String), Contains line "#shader" →
      Contains line "vertex" → Contains line "fragment" →
      parseLine st line = some ⟨ShaderType.VERTEX, st.ss0, st.ss1⟩) ∧
    (∀ (line : String) (tail : List String), ¬ Contains line "#shader" →
      appendIndices ShaderType.NONE (line :: tail)
        = (-1) :: appendIndices ShaderType.NONE tail ∧
      ParseShader (line :: tail) = none) := by
  have hm : find first "#shader" ≠ none := (find_ne_none_iff first "#shader").mpr hmarker
  have hsel : selectType ShaderType.NONE first ≠ ShaderType.NONE := by
    by_cases hv : Contains first "vertex"
    · simp [selectType_of_vertex _ _ hv]
    · have hf : Contains first "fragment" := hname.resolve_left hv
      simp [selectType_of_fragment _ _ hv hf]
  have hidx : ∀ i ∈ appendIndices ShaderType.NONE (first :: rest), i = 0 ∨ i = 1 := by
    intro i hi
    simp only [appendIndices, hm, ne_eq, not_false_eq_true, if_true] at hi
    exact appendIndices_selected rest _ hsel i hi
  refine ⟨hidx, ?_, ?_, ?_, ?_⟩
  · unfold ParseShader
    rw [parseLoop_of_indices (first :: rest) _ ?_]
    · rfl
    · intro i hi h
      rcases hidx i hi with h0 | h1 <;> omega
  · intro st line h hv hf
    rw [parseLine_marker st line ((find_ne_none_iff line "#shader").mpr h),
      selectType_of_neither _ _ hv hf]
  · intro st line h hv _
    rw [parseLine_marker st line ((find_ne_none_iff line "#shader").mpr h),
      selectType_of_vertex _ _ hv]
  · intro line tail h
    have hfind : find line "#shader" = none := (find_eq_none_iff line "#shader").mpr h
    constructor
    · simp [appendIndices, hfind, ShaderType.toInt]
    · unfold ParseShader
      rw [parseLoop, parseLine_none _ _ hfind rfl]

/-- Witness for C9: a file that starts with the vertex selector, followed by an ordinary
line, a marker line that names no section, and another ordinary line. -/
theorem ParseShader_indices_in_bounds_witness :
    (ParseShader ["#shader vertex", "a", "#shader", "b"]).isSome = true :=
  (ParseShader_indices_in_bounds "#shader vertex" ["a", "#shader", "b"]
    ⟨"", " vertex", by decide⟩ (Or.inl ⟨"#shader ", "", by decide⟩)).2.1

/-! ## Theorems: `animatedFloat` and the colour channels -/

theorem animatedFloat_ge (lo c i : ℚ) (hlo : lo ≤ 19 / 20) (hi : 0 ≤ i) (hc : lo ≤ c) :
    lo ≤ animatedFloat c i := by
  unfold animatedFloat
  simp only []
  split_ifs with h1 h2
  · linarith
  · linarith
  · linarith

theorem colorAfter_ge (n : Nat) :
    1 / 2 ≤ (colorAfter n).r ∧ 9 / 10 ≤ (colorAfter n).g ∧ 3 / 10 ≤ (colorAfter n).b := by
  induction n with
  | zero => norm_num [colorAfter, initialColor]
  | succ n ih =>
    obtain ⟨hr, hg, hb⟩ := ih
    simp only [colorAfter, stepColor]
    exact ⟨animatedFloat_ge _ _ _ (by norm_num) (by norm_num) hr,
      animatedFloat_ge _ _ _ (by norm_num) (by norm_num) hg,
      animatedFloat_ge _ _ _ (by norm_num) (by norm_num) hb⟩

/-- C4. `animatedFloat` reverses direction at the two bounds and nowhere else, over
exact rationals: the result is `c - 0.05` when `c > 1`, `c + 0.05` when `c < 0`, and
`c + i` when `0 ≤ c ≤ 1`, also at exactly `c = 0` and `c = 1`; so the result is smaller
than `c` whenever `c > 1` and greater than `c` whenever `c < 0`, whatever increment `i`
was passed. -/
theorem animatedFloat_cases (c i : ℚ) :
    (c > 1 → animatedFloat c i = c - 5 / 100) ∧
    (c < 0 → animatedFloat c i = c + 5 / 100) ∧
    (0 ≤ c → c ≤ 1 → animatedFloat c i = c + i) ∧
    animatedFloat 0 i = 0 + i ∧
    animatedFloat 1 i = 1 + i ∧
    (c > 1 → animatedFloat c i < c) ∧
    (c < 0 → c < animatedFloat c i) := by
  refine ⟨?_, ?_, ?_, ?_, ?_, ?_, ?_⟩
  · intro h
    simp only [animatedFloat, h, if_true]
    ring
  · intro h
    have h1 : ¬ c > 1 := by linarith
    simp only [animatedFloat, h1, h, if_true, if_false]
  · intro h0 h1
    have h0' : ¬ c < 0 := by linarith
    have h1' : ¬ c > 1 := by linarith
    simp only [animatedFloat, h0', h1', if_false]
  · norm_num [animatedFloat]
  · norm_num [animatedFloat]
  · intro h
    simp only [animatedFloat, h, if_true]
    linarith
  · intro h
    have h1 : ¬ c > 1 := by linarith
    simp only [animatedFloat, h1, h, if_true, if_false]
    linarith

/-- C7, evaluated on the code: the channels do not bounce across `[0,1]`.  The red
channel exceeds 1 after frame 11 (1.05), decreases once (1.0 after frame 12) and
increases again after frame 13 (1.05) although it never fell below 0; green does the
same at frames 1, 2, 3 and blue at frames 4, 6, 7; and no channel ever falls below its
start value, so none ever reaches 0. -/
theorem colorAfter_never_bounces :
    ((colorAfter 11).r = 21 / 20 ∧ (colorAfter 12).r = 1 ∧ (colorAfter 13).r = 21 / 20) ∧
    ((colorAfter 1).g = 21 / 20 ∧ (colorAfter 2).g = 1 ∧ (colorAfter 3).g = 23 / 20) ∧
    ((colorAfter 4).b = 11 / 10 ∧ (colorAfter 6).b = 1 ∧ (colorAfter 7).b = 6 / 5) ∧
    (∀ n : Nat, 1 / 2 ≤ (colorAfter n).r ∧ 9 / 10 ≤ (colorAfter n).g ∧
      3 / 10 ≤ (colorAfter n).b) := by
  refine ⟨⟨?_, ?_, ?_⟩, ⟨?_, ?_, ?_⟩, ⟨?_, ?_, ?_⟩, colorAfter_ge⟩ <;>
    norm_num [colorAfter, stepColor, initialColor, animatedFloat]

/-! ## Theorems: the geometry constants -/

/-- C6. The index data is valid for the vertex data: each of the 6 indices is less than
4, the number of two-component vertex positions; the element count 6 of the draw call
equals the length of the index array; the indices form the two triangles (0,1,2) and
(2,3,0), each with three distinct vertices; the two triangles share the vertices 0 and
2, hence the edge between them; and together they use all four vertices. -/
theorem indices_valid :
    (∀ i ∈ indices, i < vertexCount) ∧
    vertexCount = 4 ∧
    indices.length = 6 ∧
    drawCount = indices.length ∧
    drawnTriangles = [(0, 1, 2), (2, 3, 0)] ∧
    (∀ t ∈ drawnTriangles, t.1 ≠ t.2.1 ∧ t.2.1 ≠ t.2.2 ∧ t.1 ≠ t.2.2) ∧
    (∀ t ∈ drawnTriangles, 0 ∈ [t.1, t.2.1, t.2.2] ∧ 2 ∈ [t.1, t.2.1, t.2.2]) ∧
    (∀ v : Fin 4, v.val ∈ indices) := by
  refine ⟨by decide, by decide, by decide, by decide, by decide, by decide, by decide,
    by decide⟩

/-- C10, evaluated on the code: with `sizeof(float) = 4` the vertex upload at line 186
asks for `6 * 2 * 4 = 48` bytes, while the `positions` array holds 8 floats, that is
`4 * 2 * 4 = 32` bytes, so the requested size exceeds the array by 16 bytes (by
`4 * sizeof(float)` for every size of `float`); the index upload size does equal the
byte size of the 6-element `indices` array. -/
theorem vertex_upload_exceeds_positions :
    vertexUploadSize 4 = 48 ∧
    positionsSize 4 = 32 ∧
    4 * 2 * 4 = positionsSize 4 ∧
    positionsSize 4 < vertexUploadSize 4 ∧
    (∀ sizeofFloat : Nat, vertexUploadSize sizeofFloat
      = positionsSize sizeofFloat + 4 * sizeofFloat) ∧
    (∀ sizeofUnsignedInt : Nat, indexUploadSize sizeofUnsignedInt
      = indicesSize sizeofUnsignedInt) := by
  refine ⟨by decide, by decide, by decide, by decide, ?_, ?_⟩
  · intro n
    simp only [vertexUploadSize, positionsSize, positions, List.length_cons, List.length_nil]
    omega
  · intro n
    simp [indexUploadSize, indicesSize, indices]

/-! ## Theorems: the error wrapper `GLCall` -/

/-- One round of the loop of `GLClearError`, spelled with `glGetError`. -/
theorem GLClearError_round (q : List Nat) :
    GLClearError q =
      if (glGetError q).1 ≠ GL_NO_ERROR then GLClearError (glGetError q).2
      else (glGetError q).2 := by
  cases q with
  | nil => simp [GLClearError, glGetError]
  | cons e q => simp [GLClearError, glGetError]

theorem glDo_halted (d : Driver) (op : GLOp) (w : World) :
    (glDo d op w).halted = w.halted := by
  unfold glDo
  split <;> rfl

theorem emit_halted (e : Event) (w : World) : (emit e w).halted = w.halted := by
  unfold emit
  split <;> rfl

theorem glDo_no_break (d : Driver) (op : GLOp) (w : World)
    (h : Event.debugbreak ∉ w.events) : Event.debugbreak ∉ (glDo d op w).events := by
  unfold glDo
  split
  · exact h
  · simp [h]

theorem emit_out_no_break (text : String) (w : World) (h : Event.debugbreak ∉ w.events) :
    Event.debugbreak ∉ (emit (.out text) w).events := by
  unfold emit
  split
  · exact h
  · simp [h]

theorem emit_events (e : Event) (w : World) : w.events <+: (emit e w).events := by
  unfold emit
  split
  · exact List.prefix_refl _
  · exact List.prefix_append _ _

theorem glDo_events (d : Driver) (op : GLOp) (w : World) :
    w.events <+: (glDo d op w).events := by
  unfold glDo
  split
  · exact List.prefix_refl _
  · exact List.prefix_append _ _

theorem ASSERT_events (x : Bool) (w : World) : w.events <+: (ASSERT x w).events := by
  unfold ASSERT
  split
  · exact List.prefix_refl _
  · split
    · exact List.prefix_append _ _
    · exact List.prefix_refl _

theorem GLCall_glDo_events (d : Driver) (op : GLOp) (text file : String) (line : Nat)
    (w : World) : w.events <+: (GLCall (glDo d op) text file line w).events := by
  unfold GLCall
  split
  · exact List.prefix_refl _
  · simp only []
    refine List.IsPrefix.trans ?_ (ASSERT_events _ _)
    simp only []
    refine List.IsPrefix.trans ?_ (List.prefix_append _ _)
    exact glDo_events d op ⟨GLClearError w.errors, w.events, w.halted⟩

/-- On a running world, a wrapped call is recorded right after the events so far. -/
theorem GLCall_glDo_first (d : Driver) (op : GLOp) (text file : String) (line : Nat)
    (w : World) (hw : w.halted = false) :
    ∃ later, (GLCall (glDo d op) text file line w).events
      = w.events ++ Event.gl op :: later := by
  have key : ∀ (x : Bool) (w' : World), (∃ m, w'.events = w.events ++ Event.gl op :: m) →
      ∃ later, (ASSERT x w').events = w.events ++ Event.gl op :: later := by
    rintro x w' ⟨m, hm⟩
    obtain ⟨l, hl⟩ := ASSERT_events x w'
    exact ⟨m ++ l, by rw [← hl, hm]; simp⟩
  unfold GLCall
  simp only [hw, Bool.false_eq_true, if_false]
  apply key
  refine ⟨List.map Event.out (GLLogCall text file line
    (glDo d op ⟨GLClearError w.errors, w.events, false⟩).errors).2.1, ?_⟩
  simp only [glDo, Bool.false_eq_true, if_false, List.append_assoc, List.singleton_append]

theorem renderFrame_events (d : Driver) (file : String) (location : Int) (c : Color)
    (w : World) : w.events <+: (renderFrame d file location c w).2.events := by
  unfold renderFrame
  simp only []
  refine List.IsPrefix.trans ?_ (emit_events _ _)
  refine List.IsPrefix.trans ?_ (emit_events _ _)
  refine List.IsPrefix.trans ?_ (GLCall_glDo_events _ _ _ _ _ _)
  refine List.IsPrefix.trans ?_ (GLCall_glDo_events _ _ _ _ _ _)
  refine List.IsPrefix.trans ?_ (emit_events _ _)
  refine List.IsPrefix.trans ?_ (emit_events _ _)
  refine List.IsPrefix.trans ?_ (emit_events _ _)
  exact GLCall_glDo_events _ _ _ _ _ _

theorem renderLoop_events (d : Driver) (file : String) (location : Int) (n : Nat)
    (c : Color) (w : World) : w.events <+: (renderLoop d file location n c w).events := by
  induction n generalizing c w with
  | zero => exact List.prefix_refl _
  | succ n ih =>
    unfold renderLoop
    exact List.IsPrefix.trans (renderFrame_events d file location c w) (ih _ _)

theorem CompileShader_failed (d : Driver) (type : Nat) (source : String) (w : World)
    (hw : w.halted = false) (hfail : d.compileStatus type source = GL_FALSE) :
    (CompileShader d type source w).1 = 0 ∧
    (CompileShader d type source w).2.halted = false ∧
    (CompileShader d type source w).2.events = w.events ++
      [Event.gl (.glCreateShader type),
       Event.gl (.glShaderSource (d.createShader type) source),
       Event.gl (.glCompileShader (d.createShader type)),
       Event.gl (.glGetShaderiv_COMPILE_STATUS (d.createShader type)),
       Event.gl (.glGetShaderiv_INFO_LOG_LENGTH (d.createShader type)),
       Event.gl (.glGetShaderInfoLog (d.createShader type)),
       Event.out ("Faild to compile"
         ++ (if type = GL_VERTEX_SHADER then " vectex" else " fragment") ++ " shader!"),
       Event.out (d.infoLog type source),
       Event.gl (.glDeleteShader (d.createShader type))] := by
  simp [CompileShader, hfail, glDo, emit, hw]

/-- Neither branch of `CompileShader` reaches the breakpoint trap. -/
theorem CompileShader_running (d : Driver) (type : Nat) (source : String) (w : World) :
    (CompileShader d type source w).2.halted = w.halted ∧
    (Event.debugbreak ∉ w.events →
      Event.debugbreak ∉ (CompileShader d type source w).2.events) := by
  unfold CompileShader
  simp only []
  split
  · refine ⟨by simp only [glDo_halted, emit_halted], fun h => ?_⟩
    repeat first
      | apply glDo_no_break
      | apply emit_out_no_break
    exact h
  · refine ⟨by simp only [glDo_halted], fun h => ?_⟩
    repeat apply glDo_no_break
    exact h

theorem CreateShader_running (d : Driver) (vs fs : String) (w : World) :
    (CreateShader d vs fs w).1 = d.createProgram ∧
    (CreateShader d vs fs w).2.halted = w.halted ∧
    (Event.debugbreak ∉ w.events →
      Event.debugbreak ∉ (CreateShader d vs fs w).2.events) := by
  unfold CreateShader
  simp only []
  refine ⟨trivial, ?_, fun h => ?_⟩
  · simp only [glDo_halted, (CompileShader_running _ _ _ _).1]
  · repeat apply glDo_no_break
    apply (CompileShader_running _ _ _ _).2
    apply (CompileShader_running _ _ _ _).2
    exact glDo_no_break _ _ _ h

theorem mainFromLine207_uses_program (d : Driver) (file : String)
    (source : ShaderProgramSource) (frames : Nat) (w : World) (hw : w.halted = false) :
    ∃ later, (mainFromLine207 d file source frames w).events
      = (CreateShader d source.VertexSource source.FragmentSource w).2.events
        ++ Event.gl (.glUseProgram d.createProgram) :: later := by
  obtain ⟨hp, hrun, -⟩ :=
    CreateShader_running d source.VertexSource source.FragmentSource w
  rw [hw] at hrun
  obtain ⟨l1, hl1⟩ := GLCall_glDo_first d (.glUseProgram d.createProgram)
    "glUseProgram(shader)" file 208
    (CreateShader d source.VertexSource source.FragmentSource w).2 hrun
  have hrest : (GLCall (glDo d (.glUseProgram d.createProgram)) "glUseProgram(shader)" file 208
      (CreateShader d source.VertexSource source.FragmentSource w).2).events
      <+: (mainFromLine207 d file source frames w).events := by
    unfold mainFromLine207
    simp only [hp]
    refine List.IsPrefix.trans ?_ (GLCall_glDo_events _ _ _ _ _ _)
    refine List.IsPrefix.trans ?_ (renderLoop_events _ _ _ _ _ _)
    refine List.IsPrefix.trans ?_ (GLCall_glDo_events _ _ _ _ _ _)
    refine List.IsPrefix.trans ?_ (ASSERT_events _ _)
    refine List.IsPrefix.trans ?_ (GLCall_glDo_events _ _ _ _ _ _)
    exact List.prefix_refl _
  obtain ⟨l2, hl2⟩ := hrest
  refine ⟨l1 ++ l2, ?_⟩
  rw [← hl2, hl1]
  simp

/-- Counterexample to C5 as stated: on a driver where the vertex shader fails to compile
(and the fragment shader compiles, the uniform is found, and only attaching shader id 0
records an error), `main` prints the failure message, reaches no breakpoint trap, calls
`glUseProgram` on the program and draws in the first round of the render loop. -/
theorem failed_compile_still_draws :
    vertexFailsDriver.compileStatus GL_VERTEX_SHADER "bad" = GL_FALSE ∧
    (mainFromLine207 vertexFailsDriver "main.cpp" ⟨"bad", "good"⟩ 1 startWorld).halted
      = false ∧
    Event.debugbreak ∉
      (mainFromLine207 vertexFailsDriver "main.cpp" ⟨"bad", "good"⟩ 1 startWorld).events ∧
    Event.out "Faild to compile vectex shader!" ∈
      (mainFromLine207 vertexFailsDriver "main.cpp" ⟨"bad", "good"⟩ 1 startWorld).events ∧
    Event.gl (.glUseProgram 3) ∈
      (mainFromLine207 vertexFailsDriver "main.cpp" ⟨"bad", "good"⟩ 1 startWorld).events ∧
    Event.gl (.glDrawElements 6) ∈
      (mainFromLine207 vertexFailsDriver "main.cpp" ⟨"bad", "good"⟩ 1 startWorld).events := by
  refine ⟨by decide, by decide, by decide, by decide, by decide, by decide⟩

/-- C5, amended. A failed shader compile does not by itself halt the program: when the
compilation of a shader reports failure, `CompileShader` prints the failure message and
the info log, deletes the shader and returns 0, without reaching the breakpoint trap;
`CreateShader` reaches no trap either and returns the program; and `main` goes on to
call `glUseProgram` on that program. -/
theorem failed_compile_does_not_halt (d : Driver) (type : Nat) (source : String)
    (w : World) (hw : w.halted = false) (hfail : d.compileStatus type source = GL_FALSE) :
    ((CompileShader d type source w).1 = 0 ∧
     (CompileShader d type source w).2.halted = false ∧
     (CompileShader d type source w).2.events = w.events ++
      [Event.gl (.glCreateShader type),
       Event.gl (.glShaderSource (d.createShader type) source),
       Event.gl (.glCompileShader (d.createShader type)),
       Event.gl (.glGetShaderiv_COMPILE_STATUS (d.createShader type)),
       Event.gl (.glGetShaderiv_INFO_LOG_LENGTH (d.createShader type)),
       Event.gl (.glGetShaderInfoLog (d.createShader type)),
       Event.out ("Faild to compile"
         ++ (if type = GL_VERTEX_SHADER then " vectex" else " fragment") ++ " shader!"),
       Event.out (d.infoLog type source),
       Event.gl (.glDeleteShader (d.createShader type))]) ∧
    (∀ vs fs : String,
      (CreateShader d vs fs w).1 = d.createProgram ∧
      (CreateShader d vs fs w).2.halted = false ∧
      (Event.debugbreak ∉ w.events →
        Event.debugbreak ∉ (CreateShader d vs fs w).2.events)) ∧
    (∀ (file : String) (src : ShaderProgramSource) (frames : Nat),
      ∃ later, (mainFromLine207 d file src frames w).events
        = (CreateShader d src.VertexSource src.FragmentSource w).2.events
          ++ Event.gl (.glUseProgram d.createProgram) :: later) := by
  refine ⟨CompileShader_failed d type source w hw hfail, ?_, ?_⟩
  · intro vs fs
    have h := CreateShader_running d vs fs w
    rw [hw] at h
    exact h
  · intro file src frames
    exact mainFromLine207_uses_program d file src frames w hw

/-- Witness for the amended C5: the vertex shader fails to compile on
`vertexFailsDriver`. -/
theorem failed_compile_does_not_halt_witness :
    (CompileShader vertexFailsDriver GL_VERTEX_SHADER "bad" startWorld).1 = 0 ∧
    (CompileShader vertexFailsDriver GL_VERTEX_SHADER "bad" startWorld).2.halted = false :=
  have h := failed_compile_does_not_halt vertexFailsDriver GL_VERTEX_SHADER "bad" startWorld
    rfl (by decide)
  ⟨h.1.1, h.1.2.1⟩

end LearningOpenGL
